import Mathlib

/-!
Shallow embedding of the footstique-api synchronization core.

Sources embedded here:
- `src/services/matchService.js` (MatchService.bulkUpsertMatches,
  MatchService.hasMatchesForDate as an oracle),
- `src/services/syncService.js` (SyncService.makeApiRequest,
  SyncService.transformFixtureData, SyncService.getSmartSyncDates,
  SyncService.syncMatches, SyncService.computeNextRunDate),
- `src/config/constants.js` (API_CONFIG),
- `src/models/matchModel.js` (match schema, with `timestamps: true`).

Modelling conventions:
- JavaScript values that may be `undefined`/`null` are `Option`.
- A calendar date string `YYYY-MM-DD` is modelled as an `Int` day index;
  consecutive integers are consecutive calendar days.
- A promise rejection / thrown exception is `Except.error msg`.
- External collaborators (MongoDB via mongoose, the fixture HTTP API,
  the system clock) are oracles passed in explicitly.
-/

/-- Internal match document built by `transformFixtureData` and stored by
`bulkUpsertMatches` (field list from `src/services/syncService.js`,
transformFixtureData return object). -/
structure MatchDoc where
  match_id : String
  external_id : Int
  league_id : Option Int
  fixture_date : String
  kickoff_time : Int
  status : String
  status_text : String
  home_team_name : String
  home_team_logo : Option String
  home_team_goals : Option Int
  away_team_name : String
  away_team_logo : Option String
  away_team_goals : Option Int
  competition_name : String
  competition_logo : Option String
  competition_country : Option String
  venue_name : Option String
  venue_city : Option String
  referee : Option String
deriving Repr, DecidableEq

/-- A match document as persisted by MongoDB through the mongoose schema of
`src/models/matchModel.js`: the schema has `timestamps: true`, so every
stored document carries `createdAt` and `updatedAt` bookkeeping fields in
addition to the data fields. Times are epoch milliseconds. -/
structure StoredMatch where
  doc : MatchDoc
  createdAt : Nat
  updatedAt : Nat
deriving Repr, DecidableEq

/-- The match collection, keyed by the unique `match_id` field. -/
abbrev MatchStore := List StoredMatch

/-- Result object of `MatchService.bulkUpsertMatches`
(`src/services/matchService.js` lines 87-105). -/
structure UpsertResult where
  success : Bool
  inserted : Nat
  updated : Nat
deriving Repr, DecidableEq

/-- `Match.findOne`-style lookup used by the bulkWrite filter
`{ match_id: matchData.match_id }`. -/
def storeFind (store : MatchStore) (mid : String) : Option StoredMatch :=
  store.find? (fun sm => sm.doc.match_id == mid)

/-- One `updateOne` op of the bulkWrite issued by `bulkUpsertMatches`:
filter on `match_id`, `$set` the whole document, `upsert: true`.
Returns the new store, whether the op upserted (no document matched the
filter, mongo inserted one), and whether the op modified a matched
document.  Because the schema has `timestamps: true`, mongoose adds
`updatedAt := now` to the `$set` (and `createdAt := now` on insert), so a
matched document counts as modified exactly when the resulting document,
bookkeeping fields included, differs from the old one (MongoDB
`modifiedCount` counts only documents actually changed). -/
def applyUpsertOne (now : Nat) (store : MatchStore) (m : MatchDoc) :
    MatchStore × Bool × Bool :=
  match storeFind store m.match_id with
  | none => (store ++ [⟨m, now, now⟩], true, false)
  | some old =>
      let newSm : StoredMatch := ⟨m, old.createdAt, now⟩
      (store.map (fun sm => if sm.doc.match_id == m.match_id then newSm else sm),
       false, newSm != old)

/-- `MatchService.bulkUpsertMatches` (`src/services/matchService.js` lines
87-105).  `matchesData = none` models a `null`/`undefined` argument (the
`!matchesData` guard).  On a non-empty list it issues one ordered bulkWrite
of `updateOne`+upsert ops and returns
`{success: true, inserted: upsertedCount, updated: modifiedCount}`. -/
def bulkUpsertMatches (now : Nat) (store : MatchStore)
    (matchesData : Option (List MatchDoc)) : MatchStore × UpsertResult :=
  match matchesData with
  | none => (store, ⟨true, 0, 0⟩)
  | some l =>
    if l.isEmpty then (store, ⟨true, 0, 0⟩)
    else
      let r := l.foldl
        (fun (acc : MatchStore × Nat × Nat) m =>
          let (store', ups, mod) := applyUpsertOne now acc.1 m
          (store', acc.2.1 + (if ups then 1 else 0),
            acc.2.2 + (if mod then 1 else 0)))
        (store, 0, 0)
      (r.1, ⟨true, r.2.1, r.2.2⟩)

/-! ## Raw fixture shape and the transformer (`SyncService.transformFixtureData`) -/

/-- `fixture.status` sub-object of a raw API fixture. -/
structure FixtureStatus where
  short : Option String
  long : Option String
deriving Repr, DecidableEq

/-- `fixture.venue` sub-object of a raw API fixture. -/
structure FixtureVenue where
  name : Option String
  city : Option String
deriving Repr, DecidableEq

/-- `fixture` sub-object of a raw API fixture. -/
structure FixtureInfo where
  id : Option Int
  date : Option String
  status : Option FixtureStatus
  venue : Option FixtureVenue
  referee : Option String
deriving Repr, DecidableEq

/-- One team entry of `teams` in a raw API fixture. -/
structure TeamInfo where
  name : Option String
  logo : Option String
deriving Repr, DecidableEq

/-- `teams` sub-object of a raw API fixture. -/
structure TeamsInfo where
  home : Option TeamInfo
  away : Option TeamInfo
deriving Repr, DecidableEq

/-- `goals` sub-object of a raw API fixture. -/
structure GoalsInfo where
  home : Option Int
  away : Option Int
deriving Repr, DecidableEq

/-- `league` sub-object of a raw API fixture. -/
structure LeagueInfo where
  id : Option Int
  name : Option String
  logo : Option String
  country : Option String
deriving Repr, DecidableEq

/-- A raw fixture record as returned by the upstream API; every sub-object
may be absent (`undefined`). -/
structure RawFixture where
  fixture : Option FixtureInfo
  teams : Option TeamsInfo
  goals : Option GoalsInfo
  league : Option LeagueInfo
deriving Repr, DecidableEq

/-- JavaScript date primitives used by the transformer, abstracted:
`parse s` models `new Date(s)` as an epoch instant, `none` for an invalid
date (on which `toISOString()` throws a RangeError); `isoDay t` models
`t.toISOString().slice(0, 10)`, the UTC calendar day of the instant. -/
structure DateOps where
  parse : String → Option Int
  isoDay : Int → String

/-- JavaScript falsiness of a possibly-absent number (`!x` is true for
`undefined`, `null` and `0`). -/
def falsyNum : Option Int → Bool
  | none => true
  | some n => n == 0

/-- JavaScript falsiness of a possibly-absent string (`!x` is true for
`undefined`, `null` and the empty string). -/
def falsyStr : Option String → Bool
  | none => true
  | some s => s == ""

/-- JavaScript `x || d` for a possibly-absent string `x` and default `d`. -/
def jsOr (x : Option String) (d : String) : String :=
  match x with
  | none => d
  | some s => if s == "" then d else s

/-- The required-field guard of `transformFixtureData`
(`src/services/syncService.js` line 60):
`!fixtureData?.id || !fixtureData?.date || !teams?.home?.name ||
 !teams?.away?.name || !league?.name`. -/
def missingRequired (fx : RawFixture) : Bool :=
  falsyNum (fx.fixture.bind FixtureInfo.id) ||
  falsyStr (fx.fixture.bind FixtureInfo.date) ||
  falsyStr ((fx.teams.bind TeamsInfo.home).bind TeamInfo.name) ||
  falsyStr ((fx.teams.bind TeamsInfo.away).bind TeamInfo.name) ||
  falsyStr (fx.league.bind LeagueInfo.name)

/-- Body of the `try` block of `SyncService.transformFixtureData`
(`src/services/syncService.js` lines 57-84): `.error` models a thrown
exception inside the block (here: `toISOString()` on an invalid date),
`.ok none` the explicit `return null` of the required-field guard.
When the guard passes, every field it checks is present and truthy, so the
catch-all arms below it are unreachable. -/
def transformFixtureBody (ops : DateOps) (fx : RawFixture) :
    Except String (Option MatchDoc) :=
  if missingRequired fx then .ok none
  else
    match fx.fixture, fx.teams, fx.league with
    | some fd, some tms, some lg =>
      match fd.id, fd.date, tms.home, tms.away, lg.name with
      | some idv, some dateStr, some home, some away, some lname =>
        match home.name, away.name with
        | some hname, some aname =>
          match ops.parse dateStr with
          | none => .error "Invalid time value"
          | some t =>
            .ok (some {
              match_id := toString idv
              external_id := idv
              league_id := lg.id
              fixture_date := ops.isoDay t
              kickoff_time := t
              status := jsOr (fd.status.bind FixtureStatus.short) "NS"
              status_text := jsOr (fd.status.bind FixtureStatus.long) "Not Started"
              home_team_name := hname
              home_team_logo := home.logo
              home_team_goals := fx.goals.bind GoalsInfo.home
              away_team_name := aname
              away_team_logo := away.logo
              away_team_goals := fx.goals.bind GoalsInfo.away
              competition_name := lname
              competition_logo := lg.logo
              competition_country := lg.country
              venue_name := fd.venue.bind FixtureVenue.name
              venue_city := fd.venue.bind FixtureVenue.city
              referee := fd.referee })
        | _, _ => .ok none
      | _, _, _, _, _ => .ok none
    | _, _, _ => .ok none

/-- `SyncService.transformFixtureData` (`src/services/syncService.js` lines
56-89): the `try` body with the surrounding `catch` that turns any thrown
exception into `return null`. -/
def transformFixtureData (ops : DateOps) (fx : RawFixture) : Option MatchDoc :=
  match transformFixtureBody ops fx with
  | .ok r => r
  | .error _ => none

/-! ## External client retry loop (`SyncService.makeApiRequest`) -/

/-- `API_CONFIG.MAX_RETRIES` from `src/config/constants.js`. -/
def MAX_RETRIES : Nat := 3

/-- `API_CONFIG.RETRY_DELAY` (milliseconds) from `src/config/constants.js`. -/
def RETRY_DELAY : Nat := 2000

/-- `API_CONFIG.RATE_LIMIT_DELAY` (milliseconds) from `src/config/constants.js`. -/
def RATE_LIMIT_DELAY : Nat := 1000

/-- `SyncService.makeApiRequest` (`src/services/syncService.js` lines 15-50).
`attempt k` is the outcome of the k-th HTTP attempt (counting from 0):
`.error msg` models a thrown error (network/timeout failure, non-2xx
response, or JSON failure), `.ok payload` a 2xx response whose
`data.response` field is `payload` (`none` when absent, in which case the
code returns `[]`).  The second component of the result collects the
backoff delays slept between attempts, in order
(`RETRY_DELAY * 2^retryCount` milliseconds each).  On retry exhaustion the
code throws `ExternalAPIError` with the last underlying error message,
modelled as `.error` with the wrapped message. -/
def makeApiRequest (attempt : Nat → Except String (Option (List RawFixture)))
    (retryCount : Nat) : Except String (List RawFixture) × List Nat :=
  match attempt retryCount with
  | .ok payload => (.ok (payload.getD []), [])
  | .error e =>
    if h : retryCount < MAX_RETRIES - 1 then
      let d := RETRY_DELAY * 2 ^ retryCount
      let rest := makeApiRequest attempt (retryCount + 1)
      (rest.1, d :: rest.2)
    else
      (.error ("Failed to fetch data from API: " ++ e), [])
termination_by MAX_RETRIES - 1 - retryCount
decreasing_by simp only [MAX_RETRIES] at h ⊢; omega

/-! ## Date planner (`SyncService.getSmartSyncDates`) -/

/-- The loop of `getSmartSyncDates` (`src/services/syncService.js` lines
121-129) over a list of day offsets: for each offset `i` it asks
`matchService.hasMatchesForDate(today + i)` (an oracle that may reject)
and keeps the day only when the store reports no matches for it. -/
def checkUpcomingDays (hasMatches : Int → Except String Bool) (today : Int) :
    List Nat → Except String (List Int)
  | [] => .ok []
  | i :: rest => do
      let has ← hasMatches (today + (i : Int))
      let tl ← checkUpcomingDays hasMatches today rest
      pure (if has then tl else (today + (i : Int)) :: tl)

/-- `SyncService.getSmartSyncDates` (`src/services/syncService.js` lines
111-132): the previous day first, then the days at offsets 0..6 from today
for which the store has no match records. -/
def getSmartSyncDates (hasMatches : Int → Except String Bool) (today : Int) :
    Except String (List Int) := do
  let upcoming ← checkUpcomingDays hasMatches today (List.range 7)
  pure ((today - 1) :: upcoming)

/-! ## Sync orchestrator (`SyncService.syncMatches`) -/

/-- A `SyncLog` document (`src/models/syncLogModel.js`): `sync_date` is an
epoch instant, `status` one of running/completed/failed, the counters
default to 0 and `error_message` is unset until a failure. -/
structure SyncLogDoc where
  sync_date : Int
  status : String
  matches_fetched : Nat
  matches_inserted : Nat
  matches_updated : Nat
  error_message : Option String
deriving Repr, DecidableEq

/-- The `stats` object of a successful sync result
(`src/services/syncService.js` lines 178-183). -/
structure SyncStats where
  duration : String
  matches_fetched : Nat
  matches_inserted : Nat
  matches_updated : Nat
deriving Repr, DecidableEq

/-- The result value of `syncMatches`: `success` and `message` always,
`stats` only on success, `error` only on failure. -/
structure SyncResult where
  success : Bool
  message : String
  stats : Option SyncStats
  error : Option String
deriving Repr, DecidableEq

/-- Mutable state touched by `syncMatches`: the in-process fields of the
`SyncService` singleton (`isRunning`, `lastSyncStatus`, plus the
`totalRuns`/`lastError` bookkeeping of the scheduler-enabled variant of
the service, whose guard and body are otherwise identical) and the
persistent collections (SyncLog documents in creation order, the match
store, and the AppSetting key/value collection). -/
structure SyncState where
  isRunning : Bool
  totalRuns : Nat
  lastSyncStatus : Option SyncResult
  lastError : Option String
  logs : List SyncLogDoc
  store : MatchStore
  settings : List (String × String)
deriving Repr, DecidableEq

/-- Oracle for everything outside the orchestrator: collaborator outcomes
and clock values for one `syncMatches` execution.
`hasMatches` is `matchService.hasMatchesForDate`, `fetch` is
`fetchMatchesByDate` (HTTP request, league filter and transform already
applied; may reject with an `ExternalAPIError`), `today` the current
calendar day.  The `Option String` fields model whether the corresponding
collaborator call rejects (`some msg`) or succeeds (`none`):
`bulkWriteFails` for `Match.bulkWrite`, `saveCompletedFails` for the
`log.save()` of the success path, `settingFails` for
`AppSetting.updateOne`, `saveFailedFails` for the `log.save()` inside the
catch block.  `syncDate` and `writeTime` are clock readings, `nowIso` the
ISO string stored in the last_sync_date setting, `durationMs` the measured
duration. -/
structure SyncEnv where
  hasMatches : Int → Except String Bool
  fetch : Int → Except String (List MatchDoc)
  today : Int
  createLogResult : Except String Unit
  bulkWriteFails : Option String
  saveCompletedFails : Option String
  settingFails : Option String
  saveFailedFails : Option String
  syncDate : Int
  writeTime : Nat
  nowIso : String
  durationMs : Nat

/-- The date loop of `syncMatches` (`src/services/syncService.js` lines
150-157): fetch each planned date in order, concatenating the results; a
rejection of any fetch aborts the loop and propagates.  (The rate-limit
delay slept between dates has no observable effect on the state.) -/
def fetchAllDates (fetch : Int → Except String (List MatchDoc)) :
    List Int → Except String (List MatchDoc)
  | [] => .ok []
  | d :: rest => do
      let ms ← fetch d
      let tl ← fetchAllDates fetch rest
      pure (ms ++ tl)

/-- `AppSetting.updateOne({key_name}, {$set: {key_value}}, {upsert: true})`:
replace the value under the key, inserting the pair when absent. -/
def upsertSetting (settings : List (String × String)) (k v : String) :
    List (String × String) :=
  if settings.any (fun p => p.1 == k) then
    settings.map (fun p => if p.1 == k then (k, v) else p)
  else settings ++ [(k, v)]

/-- The failure result object of `syncMatches`
(`src/services/syncService.js` line 194). -/
def failResult (e : String) : SyncResult :=
  ⟨false, "Sync failed", none, some e⟩

/-- The catch block of `syncMatches` (`src/services/syncService.js` lines
187-197) in the case where the run log exists: mark the in-memory log
failed with the error message and save it; if that save itself rejects,
the exception propagates past `syncMatches` (only the `finally` clearing
of the running flag still runs and `lastSyncStatus` is not updated).
`idx` is the position of this run's log document in the collection, `st`
and `lg` the state and in-memory log at the point of the throw, `e` the
caught error message. -/
def syncCatch (env : SyncEnv) (idx : Nat) (st : SyncState) (lg : SyncLogDoc)
    (e : String) : SyncState × Except String SyncResult :=
  let lg' := { lg with status := "failed", error_message := some e }
  match env.saveFailedFails with
  | some e2 => ({ st with isRunning := false }, .error e2)
  | none =>
      let st' := { st with logs := st.logs.set idx lg' }
      ({ st' with lastSyncStatus := some (failResult e), lastError := some e,
                  isRunning := false }, .ok (failResult e))

/-- `SyncService.syncMatches` (`src/services/syncService.js` lines 134-199,
with the `totalRuns`/`lastError` bookkeeping of the scheduler-enabled
variant of the same method): guard on the running flag, create a running
SyncLog, plan dates, fetch them in order, bulk-upsert the aggregate,
mark the log completed, persist the last_sync_date setting, and convert
any exception into a failure result via the catch block; the `finally`
always clears the running flag.  The result pair is the state after the
call and either the returned result value or a propagated exception. -/
def syncMatches (env : SyncEnv) (s : SyncState) :
    SyncState × Except String SyncResult :=
  if s.isRunning then
    (s, .ok ⟨false, "Sync is already running", none, none⟩)
  else
    let s1 := { s with isRunning := true, totalRuns := s.totalRuns + 1 }
    match env.createLogResult with
    | .error e =>
        let r := failResult e
        ({ s1 with lastSyncStatus := some r, lastError := some e,
                   isRunning := false }, .ok r)
    | .ok _ =>
        let idx := s1.logs.length
        let log0 : SyncLogDoc := ⟨env.syncDate, "running", 0, 0, 0, none⟩
        let s2 := { s1 with logs := s1.logs ++ [log0] }
        match getSmartSyncDates env.hasMatches env.today with
        | .error e => syncCatch env idx s2 log0 e
        | .ok syncDates =>
          match fetchAllDates env.fetch syncDates with
          | .error e => syncCatch env idx s2 log0 e
          | .ok allMatches =>
            let log1 := { log0 with matches_fetched := allMatches.length }
            match if allMatches.isEmpty then none else env.bulkWriteFails with
            | some e => syncCatch env idx s2 log1 e
            | none =>
              let ur := bulkUpsertMatches env.writeTime s2.store (some allMatches)
              let s3 := { s2 with store := ur.1 }
              let log2 := { log1 with matches_inserted := ur.2.inserted,
                                      matches_updated := ur.2.updated,
                                      status := "completed" }
              match env.saveCompletedFails with
              | some e => syncCatch env idx s3 log2 e
              | none =>
                let s4 := { s3 with logs := s3.logs.set idx log2 }
                match env.settingFails with
                | some e => syncCatch env idx s4 log2 e
                | none =>
                  let s5 := { s4 with settings :=
                    (upsertSetting s4.settings "last_sync_date" env.nowIso) }
                  let r : SyncResult := ⟨true, "Sync completed successfully",
                    some ⟨toString env.durationMs ++ "ms", log2.matches_fetched,
                          log2.matches_inserted, log2.matches_updated⟩, none⟩
                  ({ s5 with lastSyncStatus := some r, lastError := none,
                             isRunning := false }, .ok r)

/-- Classification of the fallible steps of the `try` block of
`syncMatches` that precede any write to the match store: date planning,
the per-date fetches, and the bulk upsert itself (only reached by the
code when the aggregate list is non-empty).  `some e` when the first such
step to fail rejects with `e`, mirroring the control flow of
`syncMatches`. -/
def tryPhaseError (env : SyncEnv) : Option String :=
  match getSmartSyncDates env.hasMatches env.today with
  | .error e => some e
  | .ok ds =>
    match fetchAllDates env.fetch ds with
    | .error e => some e
    | .ok ms => if ms.isEmpty then none else env.bulkWriteFails

/-! ## Scheduler next-run computation (`SyncService.computeNextRunDate`) -/

/-- The current instant read in the target timezone: the calendar day (as
a day index), and the wall-clock hour, minute and second of day, as
produced by the `Intl.DateTimeFormat` formatting of `now` with
`timeZone: timezone`. -/
structure LocalNow where
  day : Int
  hour : Nat
  minute : Nat
  second : Nat
deriving Repr, DecidableEq

/-- A scheduled run instant in the target timezone: calendar day, hour
and minute (seconds are always zero). -/
structure RunTime where
  day : Int
  hour : Nat
  minute : Nat
deriving Repr, DecidableEq

/-- The `hasPassed` closure of `computeNextRunDate`: compares only the
hour and minute of the current timezone wall clock with the scheduled
hour and minute (`nowHour > hour`, or same hour and `nowMinute >= minute`). -/
def hasPassed (now : LocalNow) (hour minute : Nat) : Bool :=
  if now.hour > hour then true
  else if now.hour < hour then false
  else now.minute ≥ minute

/-- `SyncService.computeNextRunDate` from the scheduler-enabled variant of
the sync service, with the timezone reads abstracted into `now`: build
the occurrence of `hour:minute` on the current timezone calendar day, and
when `hasPassed` holds, on the next calendar day instead. -/
def computeNextRunDate (now : LocalNow) (hour minute : Nat) : RunTime :=
  if hasPassed now hour minute then ⟨now.day + 1, hour, minute⟩
  else ⟨now.day, hour, minute⟩

/-- Seconds-of-epoch of the current instant in the target timezone. -/
def nowInstant (n : LocalNow) : Int :=
  n.day * 86400 + n.hour * 3600 + n.minute * 60 + n.second

/-- Seconds-of-epoch of a scheduled run instant in the target timezone. -/
def runInstant (r : RunTime) : Int :=
  r.day * 86400 + r.hour * 3600 + r.minute * 60

/-- Modelled from the spec: the next occurrence of `hour:minute` in the
target timezone at or after the current instant — the occurrence on the
current timezone calendar day when it has not yet passed (now is at or
before it), otherwise the occurrence on the next day. -/
def nextOccurrenceAtOrAfter (now : LocalNow) (hour minute : Nat) : RunTime :=
  if nowInstant now ≤ runInstant ⟨now.day, hour, minute⟩ then
    ⟨now.day, hour, minute⟩
  else ⟨now.day + 1, hour, minute⟩

/-- Modelled from the spec (amended reading): the next occurrence of
`hour:minute` in the target timezone strictly after the current instant. -/
def nextOccurrenceAfter (now : LocalNow) (hour minute : Nat) : RunTime :=
  if nowInstant now < runInstant ⟨now.day, hour, minute⟩ then
    ⟨now.day, hour, minute⟩
  else ⟨now.day + 1, hour, minute⟩

/-! ## Concrete values used to instantiate the theorems -/

/-- A concrete transformed match document. -/
def docEx : MatchDoc :=
  ⟨"100", 100, some 39, "2026-10-10", 0, "NS", "Not Started",
   "A", none, none, "B", none, none, "PL", none, none, none, none, none⟩

/-- Initial service state: flag clear, no runs, empty collections. -/
def st0 : SyncState := ⟨false, 0, none, none, [], [], []⟩

/-- A state in which a synchronization is already in flight. -/
def stBusy : SyncState := { st0 with isRunning := true }

/-- An environment in which every collaborator call succeeds, the store is
empty for every day and every fetch returns no matches. -/
def envEx : SyncEnv :=
  ⟨fun _ => .ok false, fun _ => .ok [], 0, .ok (), none, none, none, none,
   0, 0, "t0", 5⟩

/-- An environment in which the fetches reject and the catch-block
`log.save()` itself rejects. -/
def envDoubleFault : SyncEnv :=
  { envEx with fetch := fun _ => .error "network down",
               saveFailedFails := some "log save failed" }

/-- An environment in which date planning rejects
(`hasMatchesForDate` fails). -/
def envPlanFail : SyncEnv :=
  { envEx with hasMatches := fun _ => .error "db down" }

/-- Date primitives on which every date string parses. -/
def opsEx : DateOps := ⟨fun _ => some 0, fun _ => "1970-01-01"⟩

/-- Date primitives on which no date string parses (`new Date` yields an
invalid date, so `toISOString()` throws). -/
def opsInvalid : DateOps := ⟨fun _ => none, fun _ => "1970-01-01"⟩

/-- A raw fixture with every sub-object absent. -/
def fxMissingEx : RawFixture := ⟨none, none, none, none⟩

/-- A raw fixture with all required fields present and truthy. -/
def fxFullEx : RawFixture :=
  ⟨some ⟨some 5, some "2026-10-10T18:00:00Z", none, none, none⟩,
   some ⟨some ⟨some "H", none⟩, some ⟨some "A", none⟩⟩,
   none, some ⟨some 39, some "PL", none, none⟩⟩

/-! ## Theorems -/

/-- C10: calling `bulkUpsertMatches` with a null/undefined list or with an
empty list returns `{success: true, inserted: 0, updated: 0}` and leaves
every stored match record unchanged (the early return fires before any
bulkWrite is issued). -/
theorem bulkUpsertMatches_empty_noop (now : Nat) (store : MatchStore) :
    bulkUpsertMatches now store none = (store, ⟨true, 0, 0⟩) ∧
    bulkUpsertMatches now store (some []) = (store, ⟨true, 0, 0⟩) :=
  ⟨rfl, rfl⟩

/-- C1: upserting a single match document into an empty store reports
`inserted = 1, updated = 0`; upserting the identical document again at a
later write instant reports `inserted = 0, updated = 1` (the mongoose
timestamps make the matched document count as modified), and the stored
match data after the second call is unchanged. -/
theorem bulkUpsertMatches_idempotent_counts (m : MatchDoc) (t1 t2 : Nat)
    (hne : t1 ≠ t2) :
    (bulkUpsertMatches t1 [] (some [m])).2 = ⟨true, 1, 0⟩ ∧
    (bulkUpsertMatches t2 (bulkUpsertMatches t1 [] (some [m])).1
      (some [m])).2 = ⟨true, 0, 1⟩ ∧
    ((bulkUpsertMatches t2 (bulkUpsertMatches t1 [] (some [m])).1
      (some [m])).1).map StoredMatch.doc =
      ((bulkUpsertMatches t1 [] (some [m])).1).map StoredMatch.doc := by
  have h1 : bulkUpsertMatches t1 [] (some [m]) =
      ([⟨m, t1, t1⟩], ⟨true, 1, 0⟩) := by
    simp [bulkUpsertMatches, applyUpsertOne, storeFind]
  have hfind : storeFind [⟨m, t1, t1⟩] m.match_id = some ⟨m, t1, t1⟩ := by
    simp [storeFind, List.find?]
  have h2 : bulkUpsertMatches t2 [⟨m, t1, t1⟩] (some [m]) =
      ([⟨m, t1, t2⟩], ⟨true, 0, 1⟩) := by
    simp only [bulkUpsertMatches, List.isEmpty_cons, List.foldl, applyUpsertOne,
      hfind]
    simp [bne_iff_ne, StoredMatch.mk.injEq, Ne.symm hne]
  rw [h1]
  simp [h2]

/-- C1 witness: concrete instantiation at `docEx` with write instants 0
and 1. -/
theorem bulkUpsertMatches_idempotent_counts_witness :
    (bulkUpsertMatches 0 [] (some [docEx])).2 = ⟨true, 1, 0⟩ ∧
    (bulkUpsertMatches 1 (bulkUpsertMatches 0 [] (some [docEx])).1
      (some [docEx])).2 = ⟨true, 0, 1⟩ ∧
    ((bulkUpsertMatches 1 (bulkUpsertMatches 0 [] (some [docEx])).1
      (some [docEx])).1).map StoredMatch.doc =
      ((bulkUpsertMatches 0 [] (some [docEx])).1).map StoredMatch.doc :=
  bulkUpsertMatches_idempotent_counts docEx 0 1 (by decide)

/-- The planner loop over a store oracle that never rejects keeps exactly
the days the store reports as missing, in input order. -/
theorem checkUpcomingDays_pure (h : Int → Bool) (today : Int) (l : List Nat) :
    checkUpcomingDays (fun d => .ok (h d)) today l =
      .ok ((l.map (fun i : Nat => today + (i : Int))).filter (fun d => !h d)) := by
  induction l with
  | nil => rfl
  | cons i rest ih =>
      simp only [checkUpcomingDays, ih, Bind.bind, Except.bind, List.map_cons,
        List.filter_cons, pure, Except.pure]
      cases hc : h (today + (i : Int)) <;> simp [hc]

/-- C4: for every store state that answers without failing, the planner
returns the previous day first, then the days at offsets 0 through 6 from
today, in ascending offset order, restricted to the days for which the
store reports no matches; in particular when today and today+3 already
have matches but offsets 1, 2, 4, 5, 6 do not, the plan is
`[yesterday, day+1, day+2, day+4, day+5, day+6]` in that order. -/
theorem getSmartSyncDates_plan (h : Int → Bool) (today : Int) :
    getSmartSyncDates (fun d => .ok (h d)) today =
      .ok ((today - 1) ::
        ((List.range 7).map (fun i : Nat => today + (i : Int))).filter
          (fun d => !h d)) ∧
    getSmartSyncDates (fun d => .ok (d == (0 : Int) || d == 3)) 0 =
      .ok [-1, 1, 2, 4, 5, 6] := by
  constructor
  · simp [getSmartSyncDates, checkUpcomingDays_pure, Bind.bind, Except.bind,
      pure, Except.pure]
  · rfl

/-- C6: the transformer returns absent (`null`), never an error, whenever
any required field (external id, date, home team name, away team name,
competition name) is missing or falsy, and any exception thrown inside the
mapping body is caught and also yields absent. -/
theorem transformFixtureData_total_filter (ops : DateOps) (fx : RawFixture) :
    (missingRequired fx = true → transformFixtureData ops fx = none) ∧
    (∀ e, transformFixtureBody ops fx = .error e →
      transformFixtureData ops fx = none) := by
  constructor
  · intro h
    simp [transformFixtureData, transformFixtureBody, h]
  · intro e h
    simp [transformFixtureData, h]

/-- C6 witness: a fixture with every field absent is filtered, and a
well-formed fixture whose date string does not parse (the mapping body
throws) is filtered rather than raising. -/
theorem transformFixtureData_total_filter_witness :
    transformFixtureData opsEx fxMissingEx = none ∧
    transformFixtureData opsInvalid fxFullEx = none :=
  ⟨(transformFixtureData_total_filter opsEx fxMissingEx).1 (by decide),
   (transformFixtureData_total_filter opsInvalid fxFullEx).2
     "Invalid time value" rfl⟩

/-- C7 counterexample: at the instant exactly 02:00:00 in the target zone
with schedule 02:00, the next occurrence at or after the current instant
is the occurrence today, but the code advances to tomorrow (its
`hasPassed` uses `nowMinute >= minute`), so the claim as stated fails at
this input. -/
theorem computeNextRunDate_boundary_counterexample :
    computeNextRunDate ⟨0, 2, 0, 0⟩ 2 0 = ⟨1, 2, 0⟩ ∧
    nextOccurrenceAtOrAfter ⟨0, 2, 0, 0⟩ 2 0 = ⟨0, 2, 0⟩ ∧
    computeNextRunDate ⟨0, 2, 0, 0⟩ 2 0 ≠ nextOccurrenceAtOrAfter ⟨0, 2, 0, 0⟩ 2 0 := by
  refine ⟨by decide, by decide, by decide⟩

/-- The minute-granular `hasPassed` test agrees, for a well-formed wall
clock and a schedule minute below 60, with the seconds-granular
comparison of the current instant against the occurrence of
`hour:minute` on the current day. -/
theorem hasPassed_true_iff (now : LocalNow) (hour minute : Nat)
    (hm : now.minute < 60) (hs : now.second < 60) (hsm : minute < 60) :
    hasPassed now hour minute = true ↔
      runInstant ⟨now.day, hour, minute⟩ ≤ nowInstant now := by
  simp only [hasPassed, runInstant, nowInstant]
  split_ifs with h1 h2
  · simp only [true_iff]
    omega
  · simp only [Bool.false_eq_true, false_iff, not_le]
    omega
  · simp only [decide_eq_true_eq]
    have hhour : now.hour = hour := le_antisymm (not_lt.mp h1) (not_lt.mp h2)
    subst hhour
    constructor <;> (intro hx; push_cast at hx ⊢; omega)

/-- C7 amended: for a well-formed timezone wall clock and a schedule
minute below 60, the computed next run is the next occurrence of
`hour:minute` in the target zone strictly after the current instant
(today when the current instant is strictly before `hour:minute`,
tomorrow otherwise, so at exactly `hour:minute:00` already tomorrow); in
particular with schedule 02:00, at 02:00:01 the result is tomorrow 02:00
and at 01:59:59 it is today 02:00. -/
theorem computeNextRunDate_next_after (now : LocalNow) (hour minute : Nat)
    (hm : now.minute < 60) (hs : now.second < 60) (hsm : minute < 60) :
    computeNextRunDate now hour minute = nextOccurrenceAfter now hour minute ∧
    computeNextRunDate ⟨now.day, 2, 0, 1⟩ 2 0 = ⟨now.day + 1, 2, 0⟩ ∧
    computeNextRunDate ⟨now.day, 1, 59, 59⟩ 2 0 = ⟨now.day, 2, 0⟩ := by
  refine ⟨?_, by simp [computeNextRunDate, hasPassed],
    by simp [computeNextRunDate, hasPassed]⟩
  by_cases hp : hasPassed now hour minute = true
  · have hle := (hasPassed_true_iff now hour minute hm hs hsm).mp hp
    simp only [computeNextRunDate, nextOccurrenceAfter, hp, if_true]
    rw [if_neg (not_lt.mpr hle)]
  · have hfalse : hasPassed now hour minute = false := by
      revert hp; cases hasPassed now hour minute <;> simp
    have hlt : nowInstant now < runInstant ⟨now.day, hour, minute⟩ :=
      not_le.mp fun hle =>
        hp ((hasPassed_true_iff now hour minute hm hs hsm).mpr hle)
    simp only [computeNextRunDate, nextOccurrenceAfter, hfalse,
      Bool.false_eq_true, if_false]
    rw [if_pos hlt]

/-- C7 amended witness: concrete instantiation at day 0, 02:00:01 in the
target zone. -/
theorem computeNextRunDate_next_after_witness :
    computeNextRunDate ⟨0, 2, 0, 1⟩ 2 0 = nextOccurrenceAfter ⟨0, 2, 0, 1⟩ 2 0 ∧
    computeNextRunDate ⟨0, 2, 0, 1⟩ 2 0 = ⟨0 + 1, 2, 0⟩ ∧
    computeNextRunDate ⟨0, 1, 59, 59⟩ 2 0 = ⟨0, 2, 0⟩ :=
  computeNextRunDate_next_after ⟨0, 2, 0, 1⟩ 2 0 (by decide) (by decide)
    (by decide)

/-- Setting the element at the old length of an appended singleton
replaces that appended element. -/
theorem list_set_append_length {α : Type _} (l : List α) (a b : α) :
    (l ++ [a]).set l.length b = l ++ [b] := by
  induction l with
  | nil => rfl
  | cons x xs ih => simp [List.set, ih]

/-- When the catch-block save succeeds, the catch block records the failed
log, stores the failure status, clears the running flag, and returns the
failure envelope. -/
theorem syncCatch_ok_of_save (env : SyncEnv) (idx : Nat) (st : SyncState)
    (lg : SyncLogDoc) (e : String) (h : env.saveFailedFails = none) :
    syncCatch env idx st lg e =
      ({ st with
         logs := (st.logs.set idx
           { lg with status := "failed", error_message := some e }),
         lastSyncStatus := some (failResult e), lastError := some e,
         isRunning := false }, .ok (failResult e)) := by
  simp [syncCatch, h]

/-- The catch block clears the running flag whether or not its own save
rejects. -/
theorem syncCatch_isRunning_false (env : SyncEnv) (idx : Nat)
    (st : SyncState) (lg : SyncLogDoc) (e : String) :
    (syncCatch env idx st lg e).1.isRunning = false := by
  cases h : env.saveFailedFails <;> simp [syncCatch, h]

/-- C2 counterexample: on a state with a run in flight, the value actually
returned carries the message `Sync is already running`, which is not the
message `already running` stated by the claim. -/
theorem syncMatches_busy_message_counterexample :
    (syncMatches envEx stBusy).2 =
      .ok ⟨false, "Sync is already running", none, none⟩ ∧
    "Sync is already running" ≠ "already running" :=
  ⟨rfl, by decide⟩

/-- C2 amended: whenever a synchronization is already in flight, a second
`syncMatches` call returns `{success: false, message: "Sync is already
running"}` immediately and leaves the state untouched: no second SyncRun
document, no counter increment, no fetch observable, no storage write. -/
theorem syncMatches_busy_no_side_effects (env : SyncEnv) (s : SyncState)
    (h : s.isRunning = true) :
    syncMatches env s =
      (s, .ok ⟨false, "Sync is already running", none, none⟩) := by
  simp [syncMatches, h]

/-- C2 amended witness: concrete busy state and environment. -/
theorem syncMatches_busy_no_side_effects_witness :
    syncMatches envEx stBusy =
      (stBusy, .ok ⟨false, "Sync is already running", none, none⟩) :=
  syncMatches_busy_no_side_effects envEx stBusy rfl

/-- C3 counterexample: when the fetches reject and the catch-block
`log.save()` itself rejects, `syncMatches` propagates that second
exception to its caller instead of returning a result value. -/
theorem syncMatches_raise_counterexample :
    (syncMatches envDoubleFault st0).2 = .error "log save failed" := rfl

/-- C3 amended: whenever the catch-block `log.save()` does not itself
reject, `syncMatches` returns a result value to its caller — a stats
envelope on success or an error envelope on failure — for every outcome
of run-log creation, planning, fetching and upserting. -/
theorem syncMatches_no_raise (env : SyncEnv) (s : SyncState)
    (h : env.saveFailedFails = none) :
    ∃ r, (syncMatches env s).2 = .ok r := by
  cases hx : (syncMatches env s).2 with
  | ok r => exact ⟨r, rfl⟩
  | error e2 =>
  exfalso
  by_cases hr : s.isRunning = true
  · simp [syncMatches, hr] at hx
  · have hrb : s.isRunning = false := by
      revert hr; cases s.isRunning <;> simp
    cases hc : env.createLogResult with
    | error e => simp [syncMatches, hrb, hc] at hx
    | ok u =>
      cases hplan : getSmartSyncDates env.hasMatches env.today with
      | error e => simp [syncMatches, hrb, hc, hplan, syncCatch, h] at hx
      | ok ds =>
        cases hf : fetchAllDates env.fetch ds with
        | error e => simp [syncMatches, hrb, hc, hplan, hf, syncCatch, h] at hx
        | ok ms =>
          cases hbw : (if ms.isEmpty then none else env.bulkWriteFails) with
          | some e =>
              simp only [List.isEmpty_iff] at hbw
              simp [syncMatches, hrb, hc, hplan, hf, hbw, syncCatch, h] at hx
          | none =>
            simp only [List.isEmpty_iff] at hbw
            cases hsc : env.saveCompletedFails with
            | some e =>
                simp [syncMatches, hrb, hc, hplan, hf, hbw, hsc, syncCatch,
                  h] at hx
            | none =>
              cases hst : env.settingFails with
              | some e =>
                  simp [syncMatches, hrb, hc, hplan, hf, hbw, hsc, hst,
                    syncCatch, h] at hx
              | none =>
                  simp [syncMatches, hrb, hc, hplan, hf, hbw, hsc, hst] at hx

/-- C3 amended witness: concrete all-success environment. -/
theorem syncMatches_no_raise_witness :
    ∃ r, (syncMatches envEx st0).2 = .ok r :=
  syncMatches_no_raise envEx st0 rfl

/-- C8: every `syncMatches` execution that passes the mutual-exclusion
guard terminates with the running flag cleared, whether it completes, is
converted to a failure result, or propagates an exception from the
catch-block save itself (the `finally` always runs). -/
theorem syncMatches_releases_flag (env : SyncEnv) (s : SyncState)
    (h : s.isRunning = false) :
    (syncMatches env s).1.isRunning = false := by
  cases hc : env.createLogResult with
  | error e => simp [syncMatches, h, hc]
  | ok u =>
    cases hplan : getSmartSyncDates env.hasMatches env.today with
    | error e => simp [syncMatches, h, hc, hplan, syncCatch_isRunning_false]
    | ok ds =>
      cases hf : fetchAllDates env.fetch ds with
      | error e =>
          simp [syncMatches, h, hc, hplan, hf, syncCatch_isRunning_false]
      | ok ms =>
        cases hbw : (if ms.isEmpty then none else env.bulkWriteFails) with
        | some e =>
            simp only [List.isEmpty_iff] at hbw
            simp [syncMatches, h, hc, hplan, hf, hbw,
              syncCatch_isRunning_false]
        | none =>
          simp only [List.isEmpty_iff] at hbw
          cases hsc : env.saveCompletedFails with
          | some e =>
              simp [syncMatches, h, hc, hplan, hf, hbw, hsc,
                syncCatch_isRunning_false]
          | none =>
            cases hst : env.settingFails with
            | some e =>
                simp [syncMatches, h, hc, hplan, hf, hbw, hsc, hst,
                  syncCatch_isRunning_false]
            | none =>
                simp [syncMatches, h, hc, hplan, hf, hbw, hsc, hst]

/-- C8 witness: the flag is cleared even in the double-fault execution in
which the exception propagates. -/
theorem syncMatches_releases_flag_witness :
    (syncMatches envDoubleFault st0).1.isRunning = false :=
  syncMatches_releases_flag envDoubleFault st0 rfl

/-- C9: every `syncMatches` run that starts from an idle state, creates
its run log, and then fails during date planning, fetching (the
transformer runs inside the fetch pipeline), or the bulk upsert, leaves
the stored match records exactly as they were, returns the failure
envelope, and appends exactly one SyncRun document, recorded with status
`failed` and the error message of the failure — provided the catch-block
save itself succeeds. -/
theorem syncMatches_failed_run_atomic (env : SyncEnv) (s : SyncState)
    (e : String) (hRun : s.isRunning = false)
    (hCreate : env.createLogResult = .ok ())
    (hSave : env.saveFailedFails = none)
    (hPhase : tryPhaseError env = some e) :
    (syncMatches env s).1.store = s.store ∧
    (syncMatches env s).2 = .ok (failResult e) ∧
    ∃ lg, (syncMatches env s).1.logs = s.logs ++ [lg] ∧
      lg.status = "failed" ∧ lg.error_message = some e := by
  unfold tryPhaseError at hPhase
  cases hplan : getSmartSyncDates env.hasMatches env.today with
  | error e2 =>
      simp only [hplan, Option.some.injEq] at hPhase
      subst hPhase
      refine ⟨?_, ?_, ⟨⟨env.syncDate, "failed", 0, 0, 0, some e2⟩, ?_, rfl,
        rfl⟩⟩ <;>
        simp [syncMatches, hRun, hCreate, hplan, syncCatch, hSave,
          list_set_append_length]
  | ok ds =>
    cases hf : fetchAllDates env.fetch ds with
    | error e2 =>
        simp only [hplan, hf, Option.some.injEq] at hPhase
        subst hPhase
        refine ⟨?_, ?_, ⟨⟨env.syncDate, "failed", 0, 0, 0, some e2⟩, ?_, rfl,
          rfl⟩⟩ <;>
          simp [syncMatches, hRun, hCreate, hplan, hf, syncCatch, hSave,
            list_set_append_length]
    | ok ms =>
        simp only [hplan, hf, List.isEmpty_iff] at hPhase
        refine ⟨?_, ?_, ⟨⟨env.syncDate, "failed", ms.length, 0, 0, some e⟩,
          ?_, rfl, rfl⟩⟩ <;>
          simp [syncMatches, hRun, hCreate, hplan, hf, hPhase, syncCatch,
            hSave, list_set_append_length]

/-- C9 witness: a concrete run in which date planning fails. -/
theorem syncMatches_failed_run_atomic_witness :
    (syncMatches envPlanFail st0).1.store = st0.store ∧
    (syncMatches envPlanFail st0).2 = .ok (failResult "db down") ∧
    ∃ lg, (syncMatches envPlanFail st0).1.logs = st0.logs ++ [lg] ∧
      lg.status = "failed" ∧ lg.error_message = some "db down" :=
  syncMatches_failed_run_atomic envPlanFail st0 "db down" rfl rfl rfl rfl

/-- C5: the retry loop makes at most `MAX_RETRIES` (3) attempts in total;
whichever attempt succeeds first has its response list returned, the
backoff delays slept before the second and third attempts are 2000ms and
4000ms (doubling), and when all three attempts fail the loop raises
`ExternalAPIError` carrying the last underlying error message. -/
theorem makeApiRequest_retry_spec
    (attempt : Nat → Except String (Option (List RawFixture))) :
    (∀ p, attempt 0 = .ok p →
      makeApiRequest attempt 0 = (.ok (p.getD []), [])) ∧
    (∀ e0 p, attempt 0 = .error e0 → attempt 1 = .ok p →
      makeApiRequest attempt 0 = (.ok (p.getD []), [2000])) ∧
    (∀ e0 e1 p, attempt 0 = .error e0 → attempt 1 = .error e1 →
      attempt 2 = .ok p →
      makeApiRequest attempt 0 = (.ok (p.getD []), [2000, 4000])) ∧
    (∀ e0 e1 e2, attempt 0 = .error e0 → attempt 1 = .error e1 →
      attempt 2 = .error e2 →
      makeApiRequest attempt 0 =
        (.error ("Failed to fetch data from API: " ++ e2), [2000, 4000])) := by
  refine ⟨?_, ?_, ?_, ?_⟩
  · intro p h0
    simp [makeApiRequest, h0]
  · intro e0 p h0 h1
    simp [makeApiRequest, h0, h1, MAX_RETRIES, RETRY_DELAY]
  · intro e0 e1 p h0 h1 h2
    simp [makeApiRequest, h0, h1, h2, MAX_RETRIES, RETRY_DELAY]
  · intro e0 e1 e2 h0 h1 h2
    simp [makeApiRequest, h0, h1, h2, MAX_RETRIES, RETRY_DELAY]

/-- C5 witness: a client that always fails exhausts the three attempts
with delays 2000ms and 4000ms and raises the wrapped error. -/
theorem makeApiRequest_retry_spec_witness :
    makeApiRequest (fun _ => .error "boom") 0 =
      (.error ("Failed to fetch data from API: " ++ "boom"), [2000, 4000]) :=
  (makeApiRequest_retry_spec (fun _ => .error "boom")).2.2.2 "boom" "boom"
    "boom" rfl rfl rfl

/-- C9 counterexample: a run that fails during fetching but whose
catch-block `log.save()` also rejects leaves its SyncRun document with
status `running` — the run is never recorded as `failed` (the stored
match records are still unchanged). -/
theorem syncMatches_failed_run_not_recorded_counterexample :
    (syncMatches envDoubleFault st0).1.store = st0.store ∧
    (syncMatches envDoubleFault st0).1.logs =
      [⟨0, "running", 0, 0, 0, none⟩] ∧
    ("running" : String) ≠ "failed" :=
  ⟨rfl, rfl, by decide⟩
